import Mathlib

/-!
# Postfix smtpd session state (`src/smtpd/smtpd.h`)

A shallow embedding of the declarations and macros of `smtpd.h`:

* the structures `SMTPD_DEFER`, `SMTPD_XFORWARD_ATTR` and `SMTPD_STATE`;
* the flag constants `SMTPD_XFORWARD_FLAG_*` and `SMTPD_PROXY_XFORWARD_*`;
* the availability tests `IS_AVAIL_CLIENT_*`;
* the mode selectors `SMTPD_STAND_ALONE` and `USE_SMTPD_PROXY`;
* the accessors `FORWARD_*` that choose between normal and forwarded
  attributes.

Conventions of the embedding:

* a `char *` is `Option CStr`: `none` is the null pointer, `some s` points to
  the NUL-terminated string whose characters before the terminator are `s`;
* an `int` that holds a set of flag bits is the `Nat` with the same binary
  digits (its two-complement bit pattern), so that C `&`, `|`, `>>` and the
  test against zero are `&&&`, `|||`, `>>>` and `≠ 0` on `Nat`;
* other `int`, `time_t` and `off_t` members are `Int`;
* pointers to objects of other modules (`VSTREAM *`, `VSTRING *`, `ARGV *`,
  `MAIL_STREAM *`) are addresses, `0` being the null pointer;
* the members that exist only under `USE_SASL_AUTH` are left out (the build
  without SASL).
-/

namespace Smtpd

/-! ## C strings -/

/-- The characters of a C string that precede its terminating NUL; none of
them is NUL. -/
def CStr : Type := { l : List Char // ∀ c ∈ l, c.toNat ≠ 0 }

instance : DecidableEq CStr := inferInstanceAs (DecidableEq (Subtype _))

/-- The C string denoted by a string literal: the characters up to the first
NUL. -/
def cstr (s : String) : CStr :=
  ⟨s.data.takeWhile (fun c => decide (c.toNat ≠ 0)), by
    intro c hc
    have h := List.mem_takeWhile_imp hc
    simpa using h⟩

/-- A `char *` value: null, or a pointer to a C string. -/
abbrev CharPtr : Type := Option CStr

/-- An address of an object of another module; `0` is the null pointer. -/
abbrev Ptr : Type := Nat

/-- The libc function `strcmp` on the contents of two C strings: zero when
they are equal, otherwise the difference of the first pair of characters (as
unsigned values) that differ, the terminator counting as `0`. -/
def strcmp : List Char → List Char → Int
  | [], [] => 0
  | [], b :: _ => 0 - (b.toNat : Int)
  | a :: _, [] => (a.toNat : Int) - 0
  | a :: as, b :: bs =>
    if a.toNat = b.toNat then strcmp as bs else (a.toNat : Int) - (b.toNat : Int)

/-- The value of `*p` for a `char *` that points to the C string `p`: its
first character, or the terminator `0` when the string is empty. -/
def CStr.deref (p : CStr) : Nat :=
  match p.val with
  | [] => 0
  | c :: _ => c.toNat

/-! ## Structures -/

/-- The struct `SMTPD_DEFER`. -/
structure SMTPD_DEFER where
  /-- is this active -/
  active : Int
  /-- reason for deferral -/
  reason : Ptr
  /-- error notification class -/
  «class» : Int
  deriving DecidableEq

/-- The struct `SMTPD_XFORWARD_ATTR`. -/
structure SMTPD_XFORWARD_ATTR where
  /-- see the `SMTPD_XFORWARD_FLAG_*` constants -/
  flags : Nat
  /-- name for access control -/
  name : CharPtr
  /-- address for access control -/
  addr : CharPtr
  /-- name[address] -/
  namaddr : CharPtr
  /-- email protocol -/
  protocol : CharPtr
  /-- helo/ehlo parameter -/
  helo_name : CharPtr
  /-- message identifier -/
  ident : CharPtr
  deriving DecidableEq

/-- The struct `SMTPD_STATE` (without the `USE_SASL_AUTH` members). -/
structure SMTPD_STATE where
  err : Int
  client : Ptr
  buffer : Ptr
  time : Int
  name : CharPtr
  addr : CharPtr
  namaddr : CharPtr
  /-- peer code: 2=ok, 4=soft, 5=hard -/
  peer_code : Int
  error_count : Int
  error_mask : Int
  notify_mask : Int
  helo_name : CharPtr
  queue_id : CharPtr
  cleanup : Ptr
  dest : Ptr
  rcpt_count : Int
  access_denied : CharPtr
  history : Ptr
  reason : CharPtr
  sender : CharPtr
  /-- owned by mail_cmd() -/
  encoding : CharPtr
  /-- owned by mail_cmd() -/
  verp_delims : CharPtr
  recipient : CharPtr
  etrn_name : CharPtr
  protocol : CharPtr
  «where» : CharPtr
  recursion : Int
  msg_size : Int
  junk_cmds : Int
  rcptmap_checked : Int
  /-- force reject into warning -/
  warn_if_reject : Int
  /-- force reject into deferral -/
  defer_if_reject : SMTPD_DEFER
  /-- force permit into deferral -/
  defer_if_permit : SMTPD_DEFER
  /-- force permit into warning -/
  defer_if_permit_client : Int
  /-- force permit into warning -/
  defer_if_permit_helo : Int
  /-- force permit into warning -/
  defer_if_permit_sender : Int
  /-- discard message -/
  discard : Int
  /-- postponed filter action -/
  saved_filter : CharPtr
  /-- postponed redirect action -/
  saved_redirect : CharPtr
  /-- postponed hold/discard -/
  saved_flags : Int
  /-- scratch space for $name expansion -/
  expand_buf : Ptr
  /-- proxy handle -/
  proxy : Ptr
  /-- proxy query/reply buffer -/
  proxy_buffer : Ptr
  /-- owned by mail_cmd() -/
  proxy_mail : CharPtr
  /-- proxy XFORWARD features -/
  proxy_xforward_features : Nat
  /-- override access control -/
  xforward : SMTPD_XFORWARD_ATTR
  deriving DecidableEq

/-! ## Flag constants -/

/-- preset done -/
def SMTPD_XFORWARD_FLAG_INIT : Nat := 1 <<< 0
/-- client name received -/
def SMTPD_XFORWARD_FLAG_NAME : Nat := 1 <<< 1
/-- client address received -/
def SMTPD_XFORWARD_FLAG_ADDR : Nat := 1 <<< 2
/-- protocol received -/
def SMTPD_XFORWARD_FLAG_PROTO : Nat := 1 <<< 3
/-- client helo received -/
def SMTPD_XFORWARD_FLAG_HELO : Nat := 1 <<< 4
/-- message identifier received -/
def SMTPD_XFORWARD_FLAG_IDENT : Nat := 1 <<< 5

/-- The macro `SMTPD_XFORWARD_FLAG_CLIENT_MASK`. -/
def SMTPD_XFORWARD_FLAG_CLIENT_MASK : Nat :=
  SMTPD_XFORWARD_FLAG_NAME ||| SMTPD_XFORWARD_FLAG_ADDR
    ||| SMTPD_XFORWARD_FLAG_PROTO ||| SMTPD_XFORWARD_FLAG_HELO

/-- client name -/
def SMTPD_PROXY_XFORWARD_NAME : Nat := 1 <<< 0
/-- client address -/
def SMTPD_PROXY_XFORWARD_ADDR : Nat := 1 <<< 1
/-- protocol -/
def SMTPD_PROXY_XFORWARD_PROTO : Nat := 1 <<< 2
/-- client helo -/
def SMTPD_PROXY_XFORWARD_HELO : Nat := 1 <<< 3
/-- message identifier -/
def SMTPD_PROXY_XFORWARD_IDENT : Nat := 1 <<< 4

/-! ## Unknown client information -/

/-- The macro `CLIENT_ATTR_UNKNOWN`, the string literal "unknown". -/
def CLIENT_ATTR_UNKNOWN : CStr := cstr "unknown"

def CLIENT_NAME_UNKNOWN : CharPtr := some CLIENT_ATTR_UNKNOWN
def CLIENT_ADDR_UNKNOWN : CharPtr := some CLIENT_ATTR_UNKNOWN
def CLIENT_NAMADDR_UNKNOWN : CharPtr := some CLIENT_ATTR_UNKNOWN
def CLIENT_HELO_UNKNOWN : CharPtr := none
def CLIENT_PROTO_UNKNOWN : CharPtr := some CLIENT_ATTR_UNKNOWN
def CLIENT_IDENT_UNKNOWN : CharPtr := none

/-- The macro `IS_AVAIL_CLIENT_ATTR(v)`:
`((v) && strcmp((v), CLIENT_ATTR_UNKNOWN))`. The right operand of `&&` is
evaluated only for a non-null `v`. -/
def IS_AVAIL_CLIENT_ATTR (v : CharPtr) : Bool :=
  match v with
  | none => false
  | some p => decide (strcmp p.val CLIENT_ATTR_UNKNOWN.val ≠ 0)

def IS_AVAIL_CLIENT_NAME (v : CharPtr) : Bool := IS_AVAIL_CLIENT_ATTR v
def IS_AVAIL_CLIENT_ADDR (v : CharPtr) : Bool := IS_AVAIL_CLIENT_ATTR v
def IS_AVAIL_CLIENT_NAMADDR (v : CharPtr) : Bool := IS_AVAIL_CLIENT_ATTR v
/-- The macro `IS_AVAIL_CLIENT_HELO(v)`: `((v) != 0)`. -/
def IS_AVAIL_CLIENT_HELO (v : CharPtr) : Bool := decide (v ≠ none)
def IS_AVAIL_CLIENT_PROTO (v : CharPtr) : Bool := IS_AVAIL_CLIENT_ATTR v
/-- The macro `IS_AVAIL_CLIENT_IDENT(v)`: `((v) != 0)`. -/
def IS_AVAIL_CLIENT_IDENT (v : CharPtr) : Bool := decide (v ≠ none)

/-! ## Stand-alone and proxy mode -/

/-- What the mode macros read besides the session: the address `VSTREAM_IN`
of the standard input stream (declared in `vstream.h`), the result of
`getuid()`, and the configuration parameters `var_owner_uid` and
`var_smtpd_proxy_filt` (a string parameter, never null). -/
structure Process where
  VSTREAM_IN : Ptr
  getuid : Nat
  var_owner_uid : Nat
  var_smtpd_proxy_filt : CStr
  deriving DecidableEq

/-- The macro `SMTPD_STAND_ALONE(state)`:
`(state->client == VSTREAM_IN && getuid() != var_owner_uid)`. -/
def SMTPD_STAND_ALONE (P : Process) (state : SMTPD_STATE) : Bool :=
  decide (state.client = P.VSTREAM_IN) && decide (P.getuid ≠ P.var_owner_uid)

/-- The macro `USE_SMTPD_PROXY(state)`:
`(SMTPD_STAND_ALONE(state) == 0 && *var_smtpd_proxy_filt)`. -/
def USE_SMTPD_PROXY (P : Process) (state : SMTPD_STATE) : Bool :=
  decide (SMTPD_STAND_ALONE P state = false) && decide (P.var_smtpd_proxy_filt.deref ≠ 0)

/-! ## Normal or forwarded attributes -/

/-- The macro `FORWARD_CLIENT_ATTR(s, a)`; the member `a`, which the macro
selects by name in both `(s)->xforward` and `(s)`, is given as the pair of
projections `xa`, `sa`. -/
def FORWARD_CLIENT_ATTR (s : SMTPD_STATE) (xa : SMTPD_XFORWARD_ATTR → CharPtr)
    (sa : SMTPD_STATE → CharPtr) : CharPtr :=
  if s.xforward.flags &&& SMTPD_XFORWARD_FLAG_CLIENT_MASK ≠ 0 then xa s.xforward else sa s

/-- The macro `FORWARD_IDENT_ATTR(s)`:
`(((s)->xforward.flags & SMTPD_XFORWARD_FLAG_IDENT) ? (s)->queue_id : (s)->ident)`.
`SMTPD_STATE` declares no member `ident`, so what `(s)->ident` denotes is the
argument `ident`. -/
def FORWARD_IDENT_ATTR (s : SMTPD_STATE) (ident : CharPtr) : CharPtr :=
  if s.xforward.flags &&& SMTPD_XFORWARD_FLAG_IDENT ≠ 0 then s.queue_id else ident

def FORWARD_ADDR (s : SMTPD_STATE) : CharPtr :=
  FORWARD_CLIENT_ATTR s SMTPD_XFORWARD_ATTR.addr SMTPD_STATE.addr
def FORWARD_NAME (s : SMTPD_STATE) : CharPtr :=
  FORWARD_CLIENT_ATTR s SMTPD_XFORWARD_ATTR.name SMTPD_STATE.name
def FORWARD_NAMADDR (s : SMTPD_STATE) : CharPtr :=
  FORWARD_CLIENT_ATTR s SMTPD_XFORWARD_ATTR.namaddr SMTPD_STATE.namaddr
def FORWARD_PROTO (s : SMTPD_STATE) : CharPtr :=
  FORWARD_CLIENT_ATTR s SMTPD_XFORWARD_ATTR.protocol SMTPD_STATE.protocol
def FORWARD_HELO (s : SMTPD_STATE) : CharPtr :=
  FORWARD_CLIENT_ATTR s SMTPD_XFORWARD_ATTR.helo_name SMTPD_STATE.helo_name
def FORWARD_IDENT (s : SMTPD_STATE) (ident : CharPtr) : CharPtr :=
  FORWARD_IDENT_ATTR s ident

/-! ## Sample sessions -/

/-- A session whose members are all zero, as after `memset(state, 0, ...)`. -/
def zeroState : SMTPD_STATE where
  err := 0
  client := 0
  buffer := 0
  time := 0
  name := none
  addr := none
  namaddr := none
  peer_code := 0
  error_count := 0
  error_mask := 0
  notify_mask := 0
  helo_name := none
  queue_id := none
  cleanup := 0
  dest := 0
  rcpt_count := 0
  access_denied := none
  history := 0
  reason := none
  sender := none
  encoding := none
  verp_delims := none
  recipient := none
  etrn_name := none
  protocol := none
  «where» := none
  recursion := 0
  msg_size := 0
  junk_cmds := 0
  rcptmap_checked := 0
  warn_if_reject := 0
  defer_if_reject := ⟨0, 0, 0⟩
  defer_if_permit := ⟨0, 0, 0⟩
  defer_if_permit_client := 0
  defer_if_permit_helo := 0
  defer_if_permit_sender := 0
  discard := 0
  saved_filter := none
  saved_redirect := none
  saved_flags := 0
  expand_buf := 0
  proxy := 0
  proxy_buffer := 0
  proxy_mail := none
  proxy_xforward_features := 0
  xforward := ⟨0, none, none, none, none, none, none⟩

/-- A session with real client `mail.example.com[192.0.2.1]`, protocol SMTP,
HELO name `client.example.com` and queue id `3F2A1B`, connected on the stream
at address `client`, whose forwarded attributes are those of
`relay.upstream.example[198.51.100.7]`, protocol ESMTP, HELO name
`upstream.example` and message identifier `9C0D7E`, under the given flags. -/
def sampleState (client : Ptr) (flags : Nat) : SMTPD_STATE :=
  { zeroState with
    client := client
    name := some (cstr "mail.example.com")
    addr := some (cstr "192.0.2.1")
    namaddr := some (cstr "mail.example.com[192.0.2.1]")
    protocol := some (cstr "SMTP")
    helo_name := some (cstr "client.example.com")
    queue_id := some (cstr "3F2A1B")
    xforward :=
      { flags := flags
        name := some (cstr "relay.upstream.example")
        addr := some (cstr "198.51.100.7")
        namaddr := some (cstr "relay.upstream.example[198.51.100.7]")
        protocol := some (cstr "ESMTP")
        helo_name := some (cstr "upstream.example")
        ident := some (cstr "9C0D7E") } }

/-! ## Operations on flag words -/

/-- The statement `flags |= a`. -/
def setFlag (flags a : Nat) : Nat := flags ||| a

/-- The statement `flags &= ~a` on a 32-bit `int`, whose complement `~a` has
the bit pattern `a ^ 0xffffffff`. -/
def clearFlag (flags a : Nat) : Nat := flags &&& (a ^^^ (2 ^ 32 - 1))

/-- Every bit in which the flag words `f` and `g` differ is a bit of `mask`
(in C, `((f ^ g) & ~mask) == 0`). -/
def differOnlyIn (mask f g : Nat) : Prop := (f ^^^ g) &&& mask = f ^^^ g

instance (mask f g : Nat) : Decidable (differOnlyIn mask f g) :=
  inferInstanceAs (Decidable ((f ^^^ g) &&& mask = f ^^^ g))

/-- The six flags of `xforward.flags`. -/
def xforwardFlags : List Nat :=
  [SMTPD_XFORWARD_FLAG_INIT, SMTPD_XFORWARD_FLAG_NAME, SMTPD_XFORWARD_FLAG_ADDR,
    SMTPD_XFORWARD_FLAG_PROTO, SMTPD_XFORWARD_FLAG_HELO, SMTPD_XFORWARD_FLAG_IDENT]

/-- A process whose standard input stream is at address `4096`, running as
user `uid`, configured with owner `owner` and proxy filter `filt`. -/
def sampleProcess (uid owner : Nat) (filt : String) : Process :=
  { VSTREAM_IN := 4096, getuid := uid, var_owner_uid := owner,
    var_smtpd_proxy_filt := cstr filt }

/-! ## Auxiliary facts -/

theorem char_eq_of_toNat_eq {a b : Char} (h : a.toNat = b.toNat) : a = b := by
  apply Char.ext
  apply UInt32.eq_of_toBitVec_eq
  apply BitVec.eq_of_toNat_eq
  exact h

/-- On C strings `strcmp` returns zero exactly for equal contents. -/
theorem strcmp_eq_zero_iff :
    ∀ (a b : List Char), (∀ c ∈ a, c.toNat ≠ 0) → (∀ c ∈ b, c.toNat ≠ 0) →
      (strcmp a b = 0 ↔ a = b)
  | [], [], _, _ => by simp [strcmp]
  | [], b :: bs, _, hb => by
    have h := hb b (List.mem_cons_self b bs)
    simp only [strcmp]
    constructor
    · intro h0
      omega
    · intro h0
      cases h0
  | a :: as, [], ha, _ => by
    have h := ha a (List.mem_cons_self a as)
    simp only [strcmp]
    constructor
    · intro h0
      omega
    · intro h0
      cases h0
  | a :: as, b :: bs, ha, hb => by
    have ih := strcmp_eq_zero_iff as bs
      (fun c hc => ha c (List.mem_cons_of_mem a hc))
      (fun c hc => hb c (List.mem_cons_of_mem b hc))
    simp only [strcmp]
    by_cases hab : a.toNat = b.toNat
    · have hc : a = b := char_eq_of_toNat_eq hab
      subst hc
      simp [ih]
    · have hne : a ≠ b := fun h => hab (by rw [h])
      simp only [hab, if_false]
      constructor
      · intro h0
        omega
      · intro h0
        cases h0
        exact absurd rfl hne

theorem IS_AVAIL_CLIENT_ATTR_iff (v : CharPtr) :
    IS_AVAIL_CLIENT_ATTR v = true ↔ v ≠ none ∧ v ≠ some CLIENT_ATTR_UNKNOWN := by
  cases v with
  | none => simp [IS_AVAIL_CLIENT_ATTR]
  | some p =>
    have h := strcmp_eq_zero_iff p.val CLIENT_ATTR_UNKNOWN.val p.property
      CLIENT_ATTR_UNKNOWN.property
    simp only [IS_AVAIL_CLIENT_ATTR, decide_eq_true_eq, ne_eq, Option.some.injEq,
      not_false_eq_true, true_and, reduceCtorEq]
    rw [h]
    constructor
    · intro h1 h2
      exact h1 (congrArg Subtype.val h2)
    · intro h1 h2
      exact h1 (Subtype.ext h2)

theorem deref_ne_zero_iff (p : CStr) : p.deref ≠ 0 ↔ p.val ≠ [] := by
  obtain ⟨l, hl⟩ := p
  cases l with
  | nil => simp [CStr.deref]
  | cons c cs =>
    have h := hl c (List.mem_cons_self c cs)
    simp [CStr.deref, h]

theorem differOnlyIn_testBit {mask f g : Nat} (h : differOnlyIn mask f g) (i : Nat)
    (hi : mask.testBit i = false) : f.testBit i = g.testBit i := by
  have hb : ((f ^^^ g) &&& mask).testBit i = (f ^^^ g).testBit i := by rw [h]
  rw [Nat.testBit_and, Nat.testBit_xor, hi] at hb
  revert hb
  generalize f.testBit i = x
  generalize g.testBit i = y
  revert x y
  decide

/-- Flag words that differ only inside `mask` agree on every test against a
word `k` disjoint from `mask`. -/
theorem and_eq_of_differOnlyIn {mask k f g : Nat} (h : differOnlyIn mask f g)
    (hk : mask &&& k = 0) : f &&& k = g &&& k := by
  apply Nat.eq_of_testBit_eq
  intro i
  have hm : (mask &&& k).testBit i = false := by rw [hk, Nat.zero_testBit]
  rw [Nat.testBit_and] at hm
  rw [Nat.testBit_and, Nat.testBit_and]
  cases hki : k.testBit i
  · rw [Bool.and_false, Bool.and_false]
  · rw [hki, Bool.and_true] at hm
    rw [differOnlyIn_testBit h i hm]

theorem setFlag_and {a b : Nat} (h : a &&& b = 0) (f : Nat) :
    setFlag f a &&& b = f &&& b := by
  apply Nat.eq_of_testBit_eq
  intro i
  have hm : (a &&& b).testBit i = false := by rw [h, Nat.zero_testBit]
  rw [Nat.testBit_and] at hm
  rw [setFlag, Nat.testBit_and, Nat.testBit_and, Nat.testBit_or]
  revert hm
  generalize f.testBit i = x
  generalize a.testBit i = y
  generalize b.testBit i = z
  revert x y z
  decide

theorem and_xor_and {a b m : Nat} (h : a &&& b = 0) (hb : b &&& m = b) (f : Nat) :
    (f &&& (a ^^^ m)) &&& b = f &&& b := by
  apply Nat.eq_of_testBit_eq
  intro i
  have hm : (a &&& b).testBit i = false := by rw [h, Nat.zero_testBit]
  have hw : (b &&& m).testBit i = b.testBit i := by rw [hb]
  rw [Nat.testBit_and] at hm hw
  rw [Nat.testBit_and, Nat.testBit_and, Nat.testBit_and, Nat.testBit_xor]
  revert hm hw
  generalize f.testBit i = x
  generalize a.testBit i = y
  generalize b.testBit i = z
  generalize m.testBit i = w
  revert x y z w
  decide

theorem clearFlag_and {a b : Nat} (h : a &&& b = 0) (hb : b &&& (2 ^ 32 - 1) = b) (f : Nat) :
    clearFlag f a &&& b = f &&& b :=
  and_xor_and h hb f

theorem FORWARD_CLIENT_ATTR_of_flag (s : SMTPD_STATE)
    (h : s.xforward.flags &&& SMTPD_XFORWARD_FLAG_CLIENT_MASK ≠ 0)
    (xa : SMTPD_XFORWARD_ATTR → CharPtr) (sa : SMTPD_STATE → CharPtr) :
    FORWARD_CLIENT_ATTR s xa sa = xa s.xforward := by
  simp [FORWARD_CLIENT_ATTR, h]

theorem FORWARD_CLIENT_ATTR_of_no_flag (s : SMTPD_STATE)
    (h : s.xforward.flags &&& SMTPD_XFORWARD_FLAG_CLIENT_MASK = 0)
    (xa : SMTPD_XFORWARD_ATTR → CharPtr) (sa : SMTPD_STATE → CharPtr) :
    FORWARD_CLIENT_ATTR s xa sa = sa s := by
  simp [FORWARD_CLIENT_ATTR, h]

/-! ## The availability tests -/

/-- C5: the tests for name, address, name[address] and protocol hold exactly
for a non-null value other than the string "unknown"; the tests for HELO and
message identifier hold exactly for a non-null value. Hence "unknown" is an
available HELO name and message identifier and an unavailable name, address,
name[address] and protocol, and each `CLIENT_*_UNKNOWN` constant is
unavailable under the test of its own attribute. -/
theorem is_avail_client_per_attribute (v : CharPtr) :
    (IS_AVAIL_CLIENT_NAME v = true ↔ v ≠ none ∧ v ≠ some (cstr "unknown")) ∧
    (IS_AVAIL_CLIENT_ADDR v = true ↔ v ≠ none ∧ v ≠ some (cstr "unknown")) ∧
    (IS_AVAIL_CLIENT_NAMADDR v = true ↔ v ≠ none ∧ v ≠ some (cstr "unknown")) ∧
    (IS_AVAIL_CLIENT_PROTO v = true ↔ v ≠ none ∧ v ≠ some (cstr "unknown")) ∧
    (IS_AVAIL_CLIENT_HELO v = true ↔ v ≠ none) ∧
    (IS_AVAIL_CLIENT_IDENT v = true ↔ v ≠ none) ∧
    IS_AVAIL_CLIENT_HELO (some (cstr "unknown")) = true ∧
    IS_AVAIL_CLIENT_IDENT (some (cstr "unknown")) = true ∧
    IS_AVAIL_CLIENT_NAME (some (cstr "unknown")) = false ∧
    IS_AVAIL_CLIENT_ADDR (some (cstr "unknown")) = false ∧
    IS_AVAIL_CLIENT_NAMADDR (some (cstr "unknown")) = false ∧
    IS_AVAIL_CLIENT_PROTO (some (cstr "unknown")) = false ∧
    IS_AVAIL_CLIENT_NAME CLIENT_NAME_UNKNOWN = false ∧
    IS_AVAIL_CLIENT_ADDR CLIENT_ADDR_UNKNOWN = false ∧
    IS_AVAIL_CLIENT_NAMADDR CLIENT_NAMADDR_UNKNOWN = false ∧
    IS_AVAIL_CLIENT_PROTO CLIENT_PROTO_UNKNOWN = false ∧
    IS_AVAIL_CLIENT_HELO CLIENT_HELO_UNKNOWN = false ∧
    IS_AVAIL_CLIENT_IDENT CLIENT_IDENT_UNKNOWN = false := by
  have h := IS_AVAIL_CLIENT_ATTR_iff v
  refine ⟨h, h, h, h, ?_, ?_, ?_, ?_, ?_, ?_, ?_, ?_, ?_, ?_, ?_, ?_, ?_, ?_⟩
  · simp [IS_AVAIL_CLIENT_HELO]
  · simp [IS_AVAIL_CLIENT_IDENT]
  all_goals decide

/-! ## Stand-alone and proxy mode -/

/-- C6: `SMTPD_STAND_ALONE` holds if and only if the client stream of the
session is `VSTREAM_IN` and the running user id differs from `var_owner_uid`;
in every other case it is false (daemon mode). -/
theorem stand_alone_iff (P : Process) (state : SMTPD_STATE) :
    (SMTPD_STAND_ALONE P state = true ↔
      state.client = P.VSTREAM_IN ∧ P.getuid ≠ P.var_owner_uid) ∧
    (SMTPD_STAND_ALONE P state = false ↔
      ¬ (state.client = P.VSTREAM_IN ∧ P.getuid ≠ P.var_owner_uid)) := by
  constructor
  · simp [SMTPD_STAND_ALONE]
  · simp only [SMTPD_STAND_ALONE, ← Bool.not_eq_true]
    simp

/-- C7: `USE_SMTPD_PROXY` holds if and only if `SMTPD_STAND_ALONE` does not
hold and `var_smtpd_proxy_filt` is a non-empty string; stand-alone mode and
proxy mode never hold together, and exactly one of the three paths holds:
stand-alone, proxy, or neither (not stand-alone, with an empty proxy filter:
the cleanup server). -/
theorem use_proxy_iff (P : Process) (state : SMTPD_STATE) :
    (USE_SMTPD_PROXY P state = true ↔
      SMTPD_STAND_ALONE P state = false ∧ P.var_smtpd_proxy_filt.val ≠ []) ∧
    ¬ (SMTPD_STAND_ALONE P state = true ∧ USE_SMTPD_PROXY P state = true) ∧
    ((SMTPD_STAND_ALONE P state = true ∧ USE_SMTPD_PROXY P state = false ∧
        ¬ (SMTPD_STAND_ALONE P state = false ∧ P.var_smtpd_proxy_filt.val = [])) ∨
      (SMTPD_STAND_ALONE P state = false ∧ USE_SMTPD_PROXY P state = true ∧
        ¬ (SMTPD_STAND_ALONE P state = false ∧ P.var_smtpd_proxy_filt.val = [])) ∨
      (SMTPD_STAND_ALONE P state = false ∧ USE_SMTPD_PROXY P state = false ∧
        (SMTPD_STAND_ALONE P state = false ∧ P.var_smtpd_proxy_filt.val = []))) := by
  have hd := deref_ne_zero_iff P.var_smtpd_proxy_filt
  have hp : USE_SMTPD_PROXY P state = true ↔
      SMTPD_STAND_ALONE P state = false ∧ P.var_smtpd_proxy_filt.val ≠ [] := by
    simp only [USE_SMTPD_PROXY, Bool.and_eq_true, decide_eq_true_eq]
    rw [hd]
  refine ⟨hp, ?_, ?_⟩
  · intro h
    have h2 := (hp.mp h.2).1
    rw [h.1] at h2
    cases h2
  · cases hs : SMTPD_STAND_ALONE P state
    · by_cases he : P.var_smtpd_proxy_filt.val = []
      · right; right
        have hx : USE_SMTPD_PROXY P state = false := by
          rw [← Bool.not_eq_true, hp]
          simp [he]
        exact ⟨rfl, hx, rfl, he⟩
      · right; left
        exact ⟨rfl, hp.mpr ⟨hs, he⟩, fun h => he h.2⟩
    · left
      have hx : USE_SMTPD_PROXY P state = false := by
        rw [← Bool.not_eq_true, hp]
        simp [hs]
      exact ⟨rfl, hx, fun h => by cases h.1⟩

/-- C8, as the claim states it, fails: on one session, connected on
`VSTREAM_IN`, `SMTPD_STAND_ALONE` is false while the configured owner id is
the running user id and true after the owner id is changed, and on a session
connected on another stream `USE_SMTPD_PROXY` is false while the proxy filter
is empty and true after it is set. -/
theorem mode_changes_with_configuration :
    SMTPD_STAND_ALONE (sampleProcess 1000 1000 "") (sampleState 4096 0) = false ∧
    SMTPD_STAND_ALONE (sampleProcess 1000 89 "") (sampleState 4096 0) = true ∧
    USE_SMTPD_PROXY (sampleProcess 89 89 "") (sampleState 5000 0) = false ∧
    USE_SMTPD_PROXY (sampleProcess 89 89 "localhost:10025") (sampleState 5000 0) = true := by
  decide

/-- C8, amended: both macros are evaluated on the configuration of the moment.
For a fixed session, standard input stream and running user id, their results
are the same under two configurations that agree on whether the owner id is
the running user id and on whether the proxy filter is empty. -/
theorem mode_constant_under_equivalent_configuration (state : SMTPD_STATE)
    (vin uid owner1 owner2 : Nat) (filt1 filt2 : CStr)
    (howner : uid = owner1 ↔ uid = owner2)
    (hfilt : filt1.val = [] ↔ filt2.val = []) :
    SMTPD_STAND_ALONE ⟨vin, uid, owner1, filt1⟩ state =
      SMTPD_STAND_ALONE ⟨vin, uid, owner2, filt2⟩ state ∧
    USE_SMTPD_PROXY ⟨vin, uid, owner1, filt1⟩ state =
      USE_SMTPD_PROXY ⟨vin, uid, owner2, filt2⟩ state := by
  have hs : SMTPD_STAND_ALONE ⟨vin, uid, owner1, filt1⟩ state =
      SMTPD_STAND_ALONE ⟨vin, uid, owner2, filt2⟩ state := by
    simp only [SMTPD_STAND_ALONE, ne_eq, howner]
  refine ⟨hs, ?_⟩
  have h1 := deref_ne_zero_iff filt1
  have h2 := deref_ne_zero_iff filt2
  simp only [USE_SMTPD_PROXY, hs]
  congr 1
  simp only [h1, h2, ne_eq, hfilt]

theorem mode_constant_under_equivalent_configuration_witness :
    ((1000 : Nat) = 89 ↔ (1000 : Nat) = 0) ∧
    ((cstr "localhost:10025").val = [] ↔ (cstr "filter.example:25").val = []) ∧
    SMTPD_STAND_ALONE ⟨4096, 1000, 89, cstr "localhost:10025"⟩ (sampleState 4096 0) =
      SMTPD_STAND_ALONE ⟨4096, 1000, 0, cstr "filter.example:25"⟩ (sampleState 4096 0) ∧
    USE_SMTPD_PROXY ⟨4096, 1000, 89, cstr "localhost:10025"⟩ (sampleState 4096 0) =
      USE_SMTPD_PROXY ⟨4096, 1000, 0, cstr "filter.example:25"⟩ (sampleState 4096 0) :=
  ⟨by decide, by decide,
    mode_constant_under_equivalent_configuration (sampleState 4096 0) 4096 1000 89 0
      (cstr "localhost:10025") (cstr "filter.example:25") (by decide) (by decide)⟩

/-! ## Normal or forwarded attributes -/

/-- C1: each of `FORWARD_NAME`, `FORWARD_ADDR`, `FORWARD_NAMADDR`,
`FORWARD_PROTO` and `FORWARD_HELO` returns the member of `xforward` when
`xforward.flags & SMTPD_XFORWARD_FLAG_CLIENT_MASK` is non-zero and the member
of the session otherwise. The flags alone decide: with a client flag set, a
forwarded value that is "unknown" (null for HELO) is what the accessor
returns, whatever the real value is. -/
theorem forward_client_attr_by_flags (s : SMTPD_STATE) :
    (FORWARD_NAME s = if s.xforward.flags &&& SMTPD_XFORWARD_FLAG_CLIENT_MASK ≠ 0
      then s.xforward.name else s.name) ∧
    (FORWARD_ADDR s = if s.xforward.flags &&& SMTPD_XFORWARD_FLAG_CLIENT_MASK ≠ 0
      then s.xforward.addr else s.addr) ∧
    (FORWARD_NAMADDR s = if s.xforward.flags &&& SMTPD_XFORWARD_FLAG_CLIENT_MASK ≠ 0
      then s.xforward.namaddr else s.namaddr) ∧
    (FORWARD_PROTO s = if s.xforward.flags &&& SMTPD_XFORWARD_FLAG_CLIENT_MASK ≠ 0
      then s.xforward.protocol else s.protocol) ∧
    (FORWARD_HELO s = if s.xforward.flags &&& SMTPD_XFORWARD_FLAG_CLIENT_MASK ≠ 0
      then s.xforward.helo_name else s.helo_name) ∧
    (s.xforward.flags &&& SMTPD_XFORWARD_FLAG_CLIENT_MASK ≠ 0 →
      (s.xforward.name = CLIENT_NAME_UNKNOWN → FORWARD_NAME s = CLIENT_NAME_UNKNOWN) ∧
      (s.xforward.addr = CLIENT_ADDR_UNKNOWN → FORWARD_ADDR s = CLIENT_ADDR_UNKNOWN) ∧
      (s.xforward.namaddr = CLIENT_NAMADDR_UNKNOWN →
        FORWARD_NAMADDR s = CLIENT_NAMADDR_UNKNOWN) ∧
      (s.xforward.protocol = CLIENT_PROTO_UNKNOWN → FORWARD_PROTO s = CLIENT_PROTO_UNKNOWN) ∧
      (s.xforward.helo_name = CLIENT_HELO_UNKNOWN → FORWARD_HELO s = CLIENT_HELO_UNKNOWN)) := by
  refine ⟨rfl, rfl, rfl, rfl, rfl, ?_⟩
  intro h
  refine ⟨?_, ?_, ?_, ?_, ?_⟩ <;> intro hx
  · rw [← hx]; exact FORWARD_CLIENT_ATTR_of_flag s h _ _
  · rw [← hx]; exact FORWARD_CLIENT_ATTR_of_flag s h _ _
  · rw [← hx]; exact FORWARD_CLIENT_ATTR_of_flag s h _ _
  · rw [← hx]; exact FORWARD_CLIENT_ATTR_of_flag s h _ _
  · rw [← hx]; exact FORWARD_CLIENT_ATTR_of_flag s h _ _

/-- A session with an available real name in which only the forwarded address
was received and the forwarded name is "unknown": the accessor returns
"unknown". -/
theorem forward_client_attr_by_flags_witness :
    IS_AVAIL_CLIENT_NAME (sampleState 0 SMTPD_XFORWARD_FLAG_ADDR).name = true ∧
    FORWARD_NAME
      { sampleState 0 SMTPD_XFORWARD_FLAG_ADDR with
        xforward :=
          { (sampleState 0 SMTPD_XFORWARD_FLAG_ADDR).xforward with
            name := CLIENT_NAME_UNKNOWN } } = CLIENT_NAME_UNKNOWN :=
  ⟨by decide,
    ((forward_client_attr_by_flags
      { sampleState 0 SMTPD_XFORWARD_FLAG_ADDR with
        xforward :=
          { (sampleState 0 SMTPD_XFORWARD_FLAG_ADDR).xforward with
            name := CLIENT_NAME_UNKNOWN } }).2.2.2.2.2 (by decide)).1 rfl⟩

/-- C2, on the code: in a session with queue id `3F2A1B` and forwarded message
identifier `9C0D7E`, `FORWARD_IDENT` with `SMTPD_XFORWARD_FLAG_IDENT` set
returns the queue id and not the forwarded identifier, whatever `(s)->ident`
denotes; with the flag clear it returns what `(s)->ident` denotes and not the
queue id. -/
theorem forward_ident_returns_queue_id_when_flag_set :
    (sampleState 0 SMTPD_XFORWARD_FLAG_IDENT).xforward.ident = some (cstr "9C0D7E") ∧
    (∀ ident : CharPtr,
      FORWARD_IDENT (sampleState 0 SMTPD_XFORWARD_FLAG_IDENT) ident = some (cstr "3F2A1B")) ∧
    (∀ ident : CharPtr,
      FORWARD_IDENT (sampleState 0 SMTPD_XFORWARD_FLAG_IDENT) ident ≠
        (sampleState 0 SMTPD_XFORWARD_FLAG_IDENT).xforward.ident) ∧
    (sampleState 0 0).queue_id = some (cstr "3F2A1B") ∧
    (∀ ident : CharPtr, FORWARD_IDENT (sampleState 0 0) ident = ident) := by
  refine ⟨by decide, ?_, ?_, by decide, ?_⟩
  · intro ident
    rfl
  · intro ident
    have h : FORWARD_IDENT (sampleState 0 SMTPD_XFORWARD_FLAG_IDENT) ident =
        some (cstr "3F2A1B") := rfl
    rw [h]
    decide
  · intro ident
    rfl

/-- C3: the five client accessors never mix sources: either all of them
return the members of `xforward` or all of them return the members of the
session; and when `xforward.flags` is exactly one of the flags NAME, ADDR,
PROTO or HELO, all of them return the members of `xforward`. -/
theorem forward_client_attrs_never_mixed (s : SMTPD_STATE) :
    ((FORWARD_NAME s = s.xforward.name ∧ FORWARD_ADDR s = s.xforward.addr ∧
        FORWARD_NAMADDR s = s.xforward.namaddr ∧ FORWARD_PROTO s = s.xforward.protocol ∧
        FORWARD_HELO s = s.xforward.helo_name) ∨
      (FORWARD_NAME s = s.name ∧ FORWARD_ADDR s = s.addr ∧
        FORWARD_NAMADDR s = s.namaddr ∧ FORWARD_PROTO s = s.protocol ∧
        FORWARD_HELO s = s.helo_name)) ∧
    (s.xforward.flags = SMTPD_XFORWARD_FLAG_NAME ∨
      s.xforward.flags = SMTPD_XFORWARD_FLAG_ADDR ∨
      s.xforward.flags = SMTPD_XFORWARD_FLAG_PROTO ∨
      s.xforward.flags = SMTPD_XFORWARD_FLAG_HELO →
      FORWARD_NAME s = s.xforward.name ∧ FORWARD_ADDR s = s.xforward.addr ∧
        FORWARD_NAMADDR s = s.xforward.namaddr ∧ FORWARD_PROTO s = s.xforward.protocol ∧
        FORWARD_HELO s = s.xforward.helo_name) := by
  have hset : s.xforward.flags &&& SMTPD_XFORWARD_FLAG_CLIENT_MASK ≠ 0 →
      FORWARD_NAME s = s.xforward.name ∧ FORWARD_ADDR s = s.xforward.addr ∧
        FORWARD_NAMADDR s = s.xforward.namaddr ∧ FORWARD_PROTO s = s.xforward.protocol ∧
        FORWARD_HELO s = s.xforward.helo_name := fun h =>
    ⟨FORWARD_CLIENT_ATTR_of_flag s h _ _, FORWARD_CLIENT_ATTR_of_flag s h _ _,
      FORWARD_CLIENT_ATTR_of_flag s h _ _, FORWARD_CLIENT_ATTR_of_flag s h _ _,
      FORWARD_CLIENT_ATTR_of_flag s h _ _⟩
  constructor
  · by_cases h : s.xforward.flags &&& SMTPD_XFORWARD_FLAG_CLIENT_MASK = 0
    · right
      exact ⟨FORWARD_CLIENT_ATTR_of_no_flag s h _ _, FORWARD_CLIENT_ATTR_of_no_flag s h _ _,
        FORWARD_CLIENT_ATTR_of_no_flag s h _ _, FORWARD_CLIENT_ATTR_of_no_flag s h _ _,
        FORWARD_CLIENT_ATTR_of_no_flag s h _ _⟩
    · left
      exact hset h
  · intro h
    apply hset
    rcases h with h | h | h | h <;> rw [h] <;> decide

/-- With only the HELO flag set, name, address, name[address], protocol and
HELO name are all the forwarded ones. -/
theorem forward_client_attrs_never_mixed_witness :
    (sampleState 0 SMTPD_XFORWARD_FLAG_HELO).xforward.flags = SMTPD_XFORWARD_FLAG_HELO ∧
    FORWARD_NAME (sampleState 0 SMTPD_XFORWARD_FLAG_HELO) =
      some (cstr "relay.upstream.example") ∧
    FORWARD_ADDR (sampleState 0 SMTPD_XFORWARD_FLAG_HELO) = some (cstr "198.51.100.7") ∧
    FORWARD_NAMADDR (sampleState 0 SMTPD_XFORWARD_FLAG_HELO) =
      some (cstr "relay.upstream.example[198.51.100.7]") ∧
    FORWARD_PROTO (sampleState 0 SMTPD_XFORWARD_FLAG_HELO) = some (cstr "ESMTP") ∧
    FORWARD_HELO (sampleState 0 SMTPD_XFORWARD_FLAG_HELO) = some (cstr "upstream.example") :=
  ⟨rfl, (forward_client_attrs_never_mixed (sampleState 0 SMTPD_XFORWARD_FLAG_HELO)).2
    (Or.inr (Or.inr (Or.inr rfl)))⟩

/-- C9: when `xforward.flags` is exactly `SMTPD_XFORWARD_FLAG_INIT`, the five
client accessors return the members of the session, whatever the members of
`xforward` hold. -/
theorem forward_client_attrs_real_after_preset (s : SMTPD_STATE)
    (h : s.xforward.flags = SMTPD_XFORWARD_FLAG_INIT) :
    FORWARD_NAME s = s.name ∧ FORWARD_ADDR s = s.addr ∧ FORWARD_NAMADDR s = s.namaddr ∧
      FORWARD_PROTO s = s.protocol ∧ FORWARD_HELO s = s.helo_name := by
  have h0 : s.xforward.flags &&& SMTPD_XFORWARD_FLAG_CLIENT_MASK = 0 := by
    rw [h]
    decide
  exact ⟨FORWARD_CLIENT_ATTR_of_no_flag s h0 _ _, FORWARD_CLIENT_ATTR_of_no_flag s h0 _ _,
    FORWARD_CLIENT_ATTR_of_no_flag s h0 _ _, FORWARD_CLIENT_ATTR_of_no_flag s h0 _ _,
    FORWARD_CLIENT_ATTR_of_no_flag s h0 _ _⟩

/-- After the preset alone the accessors return the real client, although the
forwarded members hold other values. -/
theorem forward_client_attrs_real_after_preset_witness :
    (sampleState 0 SMTPD_XFORWARD_FLAG_INIT).xforward.flags = SMTPD_XFORWARD_FLAG_INIT ∧
    (sampleState 0 SMTPD_XFORWARD_FLAG_INIT).xforward.name ≠
      (sampleState 0 SMTPD_XFORWARD_FLAG_INIT).name ∧
    FORWARD_NAME (sampleState 0 SMTPD_XFORWARD_FLAG_INIT) = some (cstr "mail.example.com") ∧
    FORWARD_ADDR (sampleState 0 SMTPD_XFORWARD_FLAG_INIT) = some (cstr "192.0.2.1") ∧
    FORWARD_NAMADDR (sampleState 0 SMTPD_XFORWARD_FLAG_INIT) =
      some (cstr "mail.example.com[192.0.2.1]") ∧
    FORWARD_PROTO (sampleState 0 SMTPD_XFORWARD_FLAG_INIT) = some (cstr "SMTP") ∧
    FORWARD_HELO (sampleState 0 SMTPD_XFORWARD_FLAG_INIT) = some (cstr "client.example.com") :=
  ⟨rfl, by decide,
    forward_client_attrs_real_after_preset (sampleState 0 SMTPD_XFORWARD_FLAG_INIT) rfl⟩

/-- C4: a change of `xforward.flags` inside the client mask, together with any
change of the forwarded name, address, name[address], protocol and HELO name,
leaves `FORWARD_IDENT` unchanged; a change of the IDENT bit of
`xforward.flags`, together with any change of `xforward.ident`, leaves
`FORWARD_NAME`, `FORWARD_ADDR`, `FORWARD_NAMADDR`, `FORWARD_PROTO` and
`FORWARD_HELO` unchanged. -/
theorem forward_ident_independent_of_client_mask (s : SMTPD_STATE) (ident : CharPtr)
    (flagsC : Nat) (name addr namaddr protocol helo_name : CharPtr)
    (flagsI : Nat) (xident : CharPtr)
    (hC : differOnlyIn SMTPD_XFORWARD_FLAG_CLIENT_MASK s.xforward.flags flagsC)
    (hI : differOnlyIn SMTPD_XFORWARD_FLAG_IDENT s.xforward.flags flagsI) :
    FORWARD_IDENT
        { s with
          xforward :=
            { s.xforward with
              flags := flagsC, name := name, addr := addr, namaddr := namaddr,
              protocol := protocol, helo_name := helo_name } } ident =
      FORWARD_IDENT s ident ∧
    FORWARD_NAME { s with xforward := { s.xforward with flags := flagsI, ident := xident } } =
      FORWARD_NAME s ∧
    FORWARD_ADDR { s with xforward := { s.xforward with flags := flagsI, ident := xident } } =
      FORWARD_ADDR s ∧
    FORWARD_NAMADDR { s with xforward := { s.xforward with flags := flagsI, ident := xident } } =
      FORWARD_NAMADDR s ∧
    FORWARD_PROTO { s with xforward := { s.xforward with flags := flagsI, ident := xident } } =
      FORWARD_PROTO s ∧
    FORWARD_HELO { s with xforward := { s.xforward with flags := flagsI, ident := xident } } =
      FORWARD_HELO s := by
  have h1 : s.xforward.flags &&& SMTPD_XFORWARD_FLAG_IDENT =
      flagsC &&& SMTPD_XFORWARD_FLAG_IDENT := and_eq_of_differOnlyIn hC (by decide)
  have h2 : s.xforward.flags &&& SMTPD_XFORWARD_FLAG_CLIENT_MASK =
      flagsI &&& SMTPD_XFORWARD_FLAG_CLIENT_MASK := and_eq_of_differOnlyIn hI (by decide)
  refine ⟨?_, ?_, ?_, ?_, ?_, ?_⟩
  · simp only [FORWARD_IDENT, FORWARD_IDENT_ATTR, h1]
  · simp only [FORWARD_NAME, FORWARD_CLIENT_ATTR, h2]
  · simp only [FORWARD_ADDR, FORWARD_CLIENT_ATTR, h2]
  · simp only [FORWARD_NAMADDR, FORWARD_CLIENT_ATTR, h2]
  · simp only [FORWARD_PROTO, FORWARD_CLIENT_ATTR, h2]
  · simp only [FORWARD_HELO, FORWARD_CLIENT_ATTR, h2]

/-- From a session with the NAME flag: replacing the client flags by ADDR and
HELO and the forwarded client by null values keeps `FORWARD_IDENT`; setting
the IDENT flag with another forwarded identifier keeps the client accessors. -/
theorem forward_ident_independent_of_client_mask_witness :
    differOnlyIn SMTPD_XFORWARD_FLAG_CLIENT_MASK
      (sampleState 0 SMTPD_XFORWARD_FLAG_NAME).xforward.flags
      (SMTPD_XFORWARD_FLAG_ADDR ||| SMTPD_XFORWARD_FLAG_HELO) ∧
    differOnlyIn SMTPD_XFORWARD_FLAG_IDENT
      (sampleState 0 SMTPD_XFORWARD_FLAG_NAME).xforward.flags
      (SMTPD_XFORWARD_FLAG_NAME ||| SMTPD_XFORWARD_FLAG_IDENT) ∧
    FORWARD_IDENT
        { sampleState 0 SMTPD_XFORWARD_FLAG_NAME with
          xforward :=
            { (sampleState 0 SMTPD_XFORWARD_FLAG_NAME).xforward with
              flags := SMTPD_XFORWARD_FLAG_ADDR ||| SMTPD_XFORWARD_FLAG_HELO,
              name := none, addr := none, namaddr := none,
              protocol := none, helo_name := none } } none =
      FORWARD_IDENT (sampleState 0 SMTPD_XFORWARD_FLAG_NAME) none ∧
    FORWARD_NAME
        { sampleState 0 SMTPD_XFORWARD_FLAG_NAME with
          xforward :=
            { (sampleState 0 SMTPD_XFORWARD_FLAG_NAME).xforward with
              flags := SMTPD_XFORWARD_FLAG_NAME ||| SMTPD_XFORWARD_FLAG_IDENT,
              ident := some (cstr "77AB10") } } =
      FORWARD_NAME (sampleState 0 SMTPD_XFORWARD_FLAG_NAME) :=
  ⟨by decide, by decide,
    (forward_ident_independent_of_client_mask (sampleState 0 SMTPD_XFORWARD_FLAG_NAME) none
      (SMTPD_XFORWARD_FLAG_ADDR ||| SMTPD_XFORWARD_FLAG_HELO) none none none none none
      (SMTPD_XFORWARD_FLAG_NAME ||| SMTPD_XFORWARD_FLAG_IDENT) (some (cstr "77AB10"))
      (by decide) (by decide)).1,
    (forward_ident_independent_of_client_mask (sampleState 0 SMTPD_XFORWARD_FLAG_NAME) none
      (SMTPD_XFORWARD_FLAG_ADDR ||| SMTPD_XFORWARD_FLAG_HELO) none none none none none
      (SMTPD_XFORWARD_FLAG_NAME ||| SMTPD_XFORWARD_FLAG_IDENT) (some (cstr "77AB10"))
      (by decide) (by decide)).2.1⟩

/-! ## The flag bits -/

/-- C10: the six flags of `xforward.flags` are the single bits 0 to 5 and are
pairwise disjoint, so that setting or clearing one of them in a flag word does
not change the test for another; the client mask is the union of NAME, ADDR,
PROTO and HELO (the bits 1 to 4) and contains neither INIT nor IDENT; and each
`SMTPD_PROXY_XFORWARD_x` is `SMTPD_XFORWARD_FLAG_x` shifted right by one, a
bit different from `SMTPD_XFORWARD_FLAG_x`. -/
theorem xforward_flag_bits :
    (SMTPD_XFORWARD_FLAG_INIT = 2 ^ 0 ∧ SMTPD_XFORWARD_FLAG_NAME = 2 ^ 1 ∧
      SMTPD_XFORWARD_FLAG_ADDR = 2 ^ 2 ∧ SMTPD_XFORWARD_FLAG_PROTO = 2 ^ 3 ∧
      SMTPD_XFORWARD_FLAG_HELO = 2 ^ 4 ∧ SMTPD_XFORWARD_FLAG_IDENT = 2 ^ 5) ∧
    List.Pairwise (fun a b => a &&& b = 0) xforwardFlags ∧
    (∀ a ∈ xforwardFlags, ∀ b ∈ xforwardFlags, a ≠ b → ∀ f : Nat,
      (setFlag f a &&& b ≠ 0 ↔ f &&& b ≠ 0) ∧
      (clearFlag f a &&& b ≠ 0 ↔ f &&& b ≠ 0)) ∧
    (SMTPD_XFORWARD_FLAG_CLIENT_MASK =
        SMTPD_XFORWARD_FLAG_NAME ||| SMTPD_XFORWARD_FLAG_ADDR |||
          SMTPD_XFORWARD_FLAG_PROTO ||| SMTPD_XFORWARD_FLAG_HELO ∧
      SMTPD_XFORWARD_FLAG_CLIENT_MASK = 2 ^ 1 + 2 ^ 2 + 2 ^ 3 + 2 ^ 4 ∧
      SMTPD_XFORWARD_FLAG_CLIENT_MASK &&& SMTPD_XFORWARD_FLAG_INIT = 0 ∧
      SMTPD_XFORWARD_FLAG_CLIENT_MASK &&& SMTPD_XFORWARD_FLAG_IDENT = 0) ∧
    (SMTPD_PROXY_XFORWARD_NAME = SMTPD_XFORWARD_FLAG_NAME >>> 1 ∧
      SMTPD_PROXY_XFORWARD_NAME ≠ SMTPD_XFORWARD_FLAG_NAME) ∧
    (SMTPD_PROXY_XFORWARD_ADDR = SMTPD_XFORWARD_FLAG_ADDR >>> 1 ∧
      SMTPD_PROXY_XFORWARD_ADDR ≠ SMTPD_XFORWARD_FLAG_ADDR) ∧
    (SMTPD_PROXY_XFORWARD_PROTO = SMTPD_XFORWARD_FLAG_PROTO >>> 1 ∧
      SMTPD_PROXY_XFORWARD_PROTO ≠ SMTPD_XFORWARD_FLAG_PROTO) ∧
    (SMTPD_PROXY_XFORWARD_HELO = SMTPD_XFORWARD_FLAG_HELO >>> 1 ∧
      SMTPD_PROXY_XFORWARD_HELO ≠ SMTPD_XFORWARD_FLAG_HELO) ∧
    (SMTPD_PROXY_XFORWARD_IDENT = SMTPD_XFORWARD_FLAG_IDENT >>> 1 ∧
      SMTPD_PROXY_XFORWARD_IDENT ≠ SMTPD_XFORWARD_FLAG_IDENT) := by
  refine ⟨by decide, by decide, ?_, by decide, by decide, by decide, by decide, by decide,
    by decide⟩
  intro a ha b hb hne f
  simp only [xforwardFlags, List.mem_cons, List.mem_singleton, List.not_mem_nil,
    or_false] at ha hb
  have key : a &&& b = 0 ∧ b &&& (2 ^ 32 - 1) = b := by
    rcases ha with rfl | rfl | rfl | rfl | rfl | rfl <;>
      rcases hb with rfl | rfl | rfl | rfl | rfl | rfl <;>
        first
          | exact absurd rfl hne
          | decide
  rw [setFlag_and key.1 f, clearFlag_and key.1 key.2 f]
  exact ⟨Iff.rfl, Iff.rfl⟩

/-- Setting or clearing the NAME flag in the flag word with ADDR and IDENT set
keeps the test for IDENT. -/
theorem xforward_flag_bits_witness :
    SMTPD_XFORWARD_FLAG_NAME ∈ xforwardFlags ∧ SMTPD_XFORWARD_FLAG_IDENT ∈ xforwardFlags ∧
    SMTPD_XFORWARD_FLAG_NAME ≠ SMTPD_XFORWARD_FLAG_IDENT ∧
    (setFlag (SMTPD_XFORWARD_FLAG_ADDR ||| SMTPD_XFORWARD_FLAG_IDENT) SMTPD_XFORWARD_FLAG_NAME
        &&& SMTPD_XFORWARD_FLAG_IDENT ≠ 0 ↔
      (SMTPD_XFORWARD_FLAG_ADDR ||| SMTPD_XFORWARD_FLAG_IDENT)
        &&& SMTPD_XFORWARD_FLAG_IDENT ≠ 0) ∧
    (clearFlag (SMTPD_XFORWARD_FLAG_ADDR ||| SMTPD_XFORWARD_FLAG_IDENT)
        SMTPD_XFORWARD_FLAG_NAME &&& SMTPD_XFORWARD_FLAG_IDENT ≠ 0 ↔
      (SMTPD_XFORWARD_FLAG_ADDR ||| SMTPD_XFORWARD_FLAG_IDENT)
        &&& SMTPD_XFORWARD_FLAG_IDENT ≠ 0) :=
  ⟨by decide, by decide, by decide,
    xforward_flag_bits.2.2.1 SMTPD_XFORWARD_FLAG_NAME (by decide) SMTPD_XFORWARD_FLAG_IDENT
      (by decide) (by decide) (SMTPD_XFORWARD_FLAG_ADDR ||| SMTPD_XFORWARD_FLAG_IDENT)⟩

end Smtpd
